import Mathlib

/-!
Verification of the Dataset-checker repository.

The repository ships an installation smoke test (`test_installation.py`)
and packaging metadata; the `dataset_checker` library itself
(`DatasetChecker`, `QualityReport`) is declared by `setup.py` and
exercised by the smoke test but its source is not part of the tree.
Definitions below that embed the library are therefore modelled from the
specification; the smoke-test data and driver are embedded directly from
`test_installation.py`.
-/

namespace DatasetChecker

/-- A single table cell: either the distinguished absent marker
(`np.nan` in the smoke test) or a numeric or textual value. -/
inductive Cell where
  | absent : Cell
  | num : ℚ → Cell
  | str : String → Cell
deriving DecidableEq

/-- A named column: an ordered list of cells. -/
structure Column where
  name : String
  cells : List Cell
deriving DecidableEq

/-- A dataset: an ordered sequence of named columns. -/
structure Dataset where
  cols : List Column
deriving DecidableEq

/-- Number of rows: length of the first column (all columns of a
well-formed dataset have equal length). -/
def Dataset.nrows (d : Dataset) : ℕ :=
  match d.cols with
  | [] => 0
  | c :: _ => c.cells.length

/-- The i-th row of the dataset: the tuple of each column's i-th cell. -/
def Dataset.row (d : Dataset) (i : ℕ) : List Cell :=
  d.cols.map (fun c => c.cells.getD i Cell.absent)

/-- All rows of the dataset, in positional order. -/
def Dataset.rows (d : Dataset) : List (List Cell) :=
  (List.range d.nrows).map d.row

/-- Number of absent-marker cells in one column. -/
def countAbsent (c : Column) : ℕ :=
  c.cells.count Cell.absent

/-- Result of the missing-values check: per-column counts plus a total. -/
structure MissingResult where
  per_column : List (String × ℕ)
  total_missing : ℕ
deriving DecidableEq

/-- Modelled from the spec: `DatasetChecker.check_missing_values`
(library code absent from the tree).  For each column, count cells equal
to the absent marker; return per-column counts plus `total_missing` =
sum over columns. -/
def check_missing_values (d : Dataset) : MissingResult :=
  { per_column := d.cols.map (fun c => (c.name, countAbsent c))
    total_missing := (d.cols.map countAbsent).sum }

/-- The 9-row smoke-test dataset built by `create_test_dataset` in
`test_installation.py` (`np.nan` becomes the absent marker). -/
def testDataset : Dataset :=
  { cols :=
      [ { name := "age"
          cells := [Cell.num 25, Cell.num 30, Cell.num 45, Cell.num 90,
                    Cell.num 35, Cell.absent, Cell.num 32, Cell.num 30,
                    Cell.num 45] }
      , { name := "income"
          cells := [Cell.num 50000, Cell.num 60000, Cell.num 75000,
                    Cell.num 800000, Cell.num 65000, Cell.num 55000,
                    Cell.num 52000, Cell.num 60000, Cell.num 75000] }
      , { name := "gender"
          cells := [Cell.str "M", Cell.str "F", Cell.str "M", Cell.str "M",
                    Cell.str "F", Cell.str "F", Cell.str "M", Cell.str "F",
                    Cell.str "M"] }
      , { name := "email"
          cells := [Cell.str "user1@example.com", Cell.str "user2@example.com",
                    Cell.str "user3@example.com", Cell.str "invalid-email",
                    Cell.str "user5@example.com", Cell.str "user6@example.com",
                    Cell.str "user7@example.com", Cell.str "user2@example.com",
                    Cell.str "user3@example.com"] }
      , { name := "status"
          cells := [Cell.str "active", Cell.str "inactive", Cell.str "active",
                    Cell.str "active", Cell.str "inactive", Cell.absent,
                    Cell.str "active", Cell.str "inactive", Cell.str "active"] }
      ] }

/-- Result of the duplicate check: the duplicate groups (content of the
representative row together with how often that content occurs) plus the
count of rows beyond the first occurrence of each group. -/
structure DupResult where
  groups : List (List Cell × ℕ)
  total_duplicates : ℕ
deriving DecidableEq

/-- Number of rows in the list whose content equals `r`. -/
def rowCount (rs : List (List Cell)) (r : List Cell) : ℕ :=
  rs.countP (fun x => decide (x = r))

/-- Modelled from the spec: `DatasetChecker.check_duplicates` with the
default (all-columns) configuration (library code absent from the tree).
A row is a duplicate iff its full tuple of cell values, absent marker
included, equals an earlier row's tuple; the total is the number of rows
beyond the first occurrence in each duplicate group, and the grouping is
identified by row content. -/
def check_duplicates (d : Dataset) : DupResult :=
  { groups :=
      (d.rows.dedup.filter (fun r => 2 ≤ rowCount d.rows r)).map
        (fun r => (r, rowCount d.rows r))
    total_duplicates := d.rows.length - d.rows.dedup.length }

/-- Numeric values of a column, in cell order (absent cells dropped). -/
def numericValues (c : Column) : List ℚ :=
  c.cells.filterMap (fun x =>
    match x with
    | Cell.num q => some q
    | _ => none)

/-- A column is treated as numeric when no cell holds text. -/
def isNumericColumn (c : Column) : Bool :=
  c.cells.all (fun x =>
    match x with
    | Cell.str _ => false
    | _ => true)

/-- Arithmetic mean of a list of rationals (0 for the empty list). -/
def listMean (l : List ℚ) : ℚ :=
  l.sum / l.length

/-- Population variance of a list of rationals (0 for the empty list). -/
def listVariance (l : List ℚ) : ℚ :=
  (l.map (fun v => (v - listMean l) ^ 2)).sum / l.length

/-- Per-column outcome of the outlier check: a recorded skip with its
reason, or the list of flagged row indices. -/
inductive ColOutcome where
  | skipped : String → ColOutcome
  | flagged : List ℕ → ColOutcome
deriving DecidableEq

/-- How many outliers a per-column outcome contributes to the total. -/
def outcomeCount : ColOutcome → ℕ
  | ColOutcome.skipped _ => 0
  | ColOutcome.flagged l => l.length

/-- Modelled from the spec: the per-column rule of
`DatasetChecker.check_outliers` (library code absent from the tree).
Non-numeric columns, columns with fewer than 2 non-missing values and
zero-variance columns are skipped with a recorded reason; otherwise the
z-score rule flags row indices whose value satisfies
`|value - mean| / std > t`, stated equivalently over rationals as
`(value - mean)^2 > t^2 * variance`. -/
def columnOutliers (t : ℚ) (c : Column) : ColOutcome :=
  if isNumericColumn c then
    if (numericValues c).length < 2 then
      ColOutcome.skipped "fewer than 2 non-missing values"
    else if listVariance (numericValues c) = 0 then
      ColOutcome.skipped "zero variance"
    else
      ColOutcome.flagged (c.cells.enum.filterMap (fun p =>
        match p.2 with
        | Cell.num q =>
            if t ^ 2 * listVariance (numericValues c)
                < (q - listMean (numericValues c)) ^ 2 then
              some p.1
            else
              none
        | _ => none))
  else
    ColOutcome.skipped "non-numeric column"

/-- Result of the outlier check: per-column outcomes plus a total. -/
structure OutlierResult where
  per_column : List (String × ColOutcome)
  total_outliers : ℕ
deriving DecidableEq

/-- Modelled from the spec: `DatasetChecker.check_outliers` with z-score
threshold `t` (library code absent from the tree); `total_outliers` is
the sum of the per-column flag counts. -/
def check_outliers (d : Dataset) (t : ℚ) : OutlierResult :=
  { per_column := d.cols.map (fun c => (c.name, columnOutliers t c))
    total_outliers :=
      (d.cols.map (fun c => outcomeCount (columnOutliers t c))).sum }

/-- The quality report: dataset metadata plus the three check results. -/
structure QualityReport where
  name : String
  report_rows : ℕ
  report_cols : ℕ
  missing : MissingResult
  outliers : OutlierResult
  duplicates : DupResult
deriving DecidableEq

/-- Modelled from the spec: `DatasetChecker.run_quality_check` (library
code absent from the tree).  Fails only when the dataset is null/absent;
otherwise it runs the three checks with the given configuration and folds
their results into a `QualityReport`, with per-column failures recorded
as skip entries inside the outlier result rather than raised. -/
def run_quality_check (d : Option Dataset) (label : String) (t : ℚ) :
    Except String QualityReport :=
  match d with
  | none => Except.error "dataset is null"
  | some ds =>
      Except.ok
        { name := label
          report_rows := ds.nrows
          report_cols := ds.cols.length
          missing := check_missing_values ds
          outliers := check_outliers ds t
          duplicates := check_duplicates ds }

/-- Modelled from the spec: the fixed-section rendering behind
`QualityReport.summary` — a header with name and shape, then one line
per check stating its total. -/
def summaryLines (r : QualityReport) : List String :=
  [ "Quality Report: " ++ r.name
  , "Shape: " ++ toString r.report_rows ++ " rows x "
      ++ toString r.report_cols ++ " columns"
  , "Missing values: " ++ toString r.missing.total_missing
  , "Outliers: " ++ toString r.outliers.total_outliers
  , "Duplicates: " ++ toString r.duplicates.total_duplicates ]

/-- Modelled from the spec: `QualityReport.summary`, the joined textual
rendering of `summaryLines`. -/
def QualityReport.summary (r : QualityReport) : String :=
  String.intercalate "\n" (summaryLines r)

/-- C1: for every dataset, `total_missing` returned by
`check_missing_values` equals the number of absent-marker cells obtained
by direct enumeration over all cells, and equals the sum of the returned
per-column missing counts. -/
theorem total_missing_eq_direct_enumeration (d : Dataset) :
    (check_missing_values d).total_missing
        = ((d.cols.map Column.cells).flatten.count Cell.absent)
      ∧ (check_missing_values d).total_missing
        = ((check_missing_values d).per_column.map Prod.snd).sum := by
  constructor
  · simp only [check_missing_values, List.count_flatten, List.map_map]
    rfl
  · simp only [check_missing_values, List.map_map]
    rfl

/-- C3: on the concrete 9-row smoke-test dataset, `check_missing_values`
returns `total_missing = 2` (one absent cell in `age`, one in `status`). -/
theorem testDataset_total_missing :
    (check_missing_values testDataset).total_missing = 2 := by
  decide

/-- C2 counterexample: the smoke-test dataset does contain whole-row
duplicates (row 7 repeats row 1 and row 8 repeats row 2, 0-based), so
`check_duplicates` with the default all-columns configuration does not
return 0. -/
theorem testDataset_has_whole_row_duplicates :
    (check_duplicates testDataset).total_duplicates ≠ 0
      ∧ testDataset.row 7 = testDataset.row 1
      ∧ testDataset.row 8 = testDataset.row 2 := by
  refine ⟨?_, ?_, ?_⟩ <;> decide

/-- C2 amended: under the whole-row duplicate definition, the concrete
9-row smoke-test dataset contains exactly two whole-row duplicate rows
(each beyond the first occurrence of its group), so `check_duplicates`
on it with the default (all-columns) configuration returns
`total_duplicates = 2`. -/
theorem testDataset_total_duplicates :
    (check_duplicates testDataset).total_duplicates = 2 := by
  decide

/-- C6: for every pair of datasets whose row lists are permutations of
each other, `check_duplicates` returns the same `total_duplicates` and
the same duplicate groupings identified by row content (the group lists
are permutations of each other and every row content occurs equally
often). -/
theorem check_duplicates_perm_invariant (d d' : Dataset)
    (h : d.rows.Perm d'.rows) :
    (check_duplicates d).total_duplicates
        = (check_duplicates d').total_duplicates
      ∧ (check_duplicates d).groups.Perm (check_duplicates d').groups
      ∧ ∀ r, rowCount d.rows r = rowCount d'.rows r := by
  have hc : ∀ r, rowCount d.rows r = rowCount d'.rows r :=
    fun r => h.countP_eq (fun x => decide (x = r))
  refine ⟨?_, ?_, hc⟩
  · simp only [check_duplicates, h.length_eq, h.dedup.length_eq]
  · simp only [check_duplicates]
    have hp : (fun r => decide (2 ≤ rowCount d.rows r))
        = (fun r => decide (2 ≤ rowCount d'.rows r)) := by
      funext r
      rw [hc r]
    have hf : (fun r => (r, rowCount d.rows r))
        = (fun r => (r, rowCount d'.rows r)) := by
      funext r
      rw [hc r]
    rw [hp, hf]
    exact (h.dedup.filter _).map _

/-- C4: for every non-null dataset, `run_quality_check` returns a
`QualityReport` (it never raises because of an individual per-column
issue: every column, including skipped ones, is recorded as an entry of
the report's outlier result), and it raises exactly when the dataset is
null/absent. -/
theorem run_quality_check_raises_only_on_null (ds : Dataset)
    (label : String) (t : ℚ) :
    (∃ r, run_quality_check (some ds) label t = Except.ok r
        ∧ ∀ c ∈ ds.cols, (c.name, columnOutliers t c) ∈ r.outliers.per_column)
      ∧ run_quality_check none label t = Except.error "dataset is null" := by
  refine ⟨⟨_, rfl, ?_⟩, rfl⟩
  intro c hc
  exact List.mem_map_of_mem _ hc

/-- C5: for every dataset and fixed configuration, the totals inside the
report produced by `run_quality_check` equal the totals returned by
calling `check_missing_values`, `check_outliers` and `check_duplicates`
independently with the same configuration. -/
theorem run_quality_check_totals_eq_independent (ds : Dataset)
    (label : String) (t : ℚ) :
    ∃ r, run_quality_check (some ds) label t = Except.ok r
      ∧ r.missing.total_missing = (check_missing_values ds).total_missing
      ∧ r.outliers.total_outliers = (check_outliers ds t).total_outliers
      ∧ r.duplicates.total_duplicates
        = (check_duplicates ds).total_duplicates :=
  ⟨_, rfl, rfl, rfl, rfl⟩

/-- C7: every numeric column whose non-missing values have zero variance
or number fewer than 2 is skipped by the outlier check with a recorded
reason, contributes zero flagged rows, and still appears as an entry of
the returned result (the check returns normally). -/
theorem zero_variance_column_skipped (d : Dataset) (t : ℚ) (c : Column)
    (hc : c ∈ d.cols)
    (h : listVariance (numericValues c) = 0 ∨ (numericValues c).length < 2) :
    (∃ reason, columnOutliers t c = ColOutcome.skipped reason)
      ∧ outcomeCount (columnOutliers t c) = 0
      ∧ (c.name, columnOutliers t c) ∈ (check_outliers d t).per_column
      ∧ (check_outliers d t).total_outliers
        = (d.cols.map (fun x => outcomeCount (columnOutliers t x))).sum := by
  have hsk : ∃ reason, columnOutliers t c = ColOutcome.skipped reason := by
    unfold columnOutliers
    by_cases hb : isNumericColumn c
    · simp only [hb, if_true]
      by_cases hlen : (numericValues c).length < 2
      · exact ⟨_, by rw [if_pos hlen]⟩
      · have hv : listVariance (numericValues c) = 0 := by
          rcases h with hv | hl
          · exact hv
          · exact absurd hl hlen
        exact ⟨_, by rw [if_neg hlen, if_pos hv]⟩
    · simp only [hb, if_false]
      exact ⟨_, rfl⟩
  obtain ⟨reason, hr⟩ := hsk
  refine ⟨⟨reason, hr⟩, by rw [hr]; rfl, ?_, rfl⟩
  exact List.mem_map_of_mem _ hc

/-- Witness for C7 at a concrete zero-variance numeric column. -/
theorem zero_variance_column_skipped_witness :
    ({ name := "x", cells := [Cell.num 5, Cell.num 5] } : Column)
        ∈ (Dataset.mk [{ name := "x", cells := [Cell.num 5, Cell.num 5] }]).cols
      ∧ outcomeCount (columnOutliers 3
          { name := "x", cells := [Cell.num 5, Cell.num 5] }) = 0 :=
  ⟨by decide,
    (zero_variance_column_skipped
      (Dataset.mk [{ name := "x", cells := [Cell.num 5, Cell.num 5] }]) 3
      { name := "x", cells := [Cell.num 5, Cell.num 5] }
      (by decide)
      (Or.inl (by norm_num [listVariance, listMean, numericValues,
        List.filterMap_cons, List.filterMap_nil]))).2.1⟩

/-- C8: `summary` renders every well-formed report without failing, and
when all three totals are zero the rendered lines explicitly state "0"
for each metric instead of omitting the section. -/
theorem summary_states_zero_totals (r : QualityReport)
    (h1 : r.missing.total_missing = 0)
    (h2 : r.outliers.total_outliers = 0)
    (h3 : r.duplicates.total_duplicates = 0) :
    "Missing values: 0" ∈ summaryLines r
      ∧ "Outliers: 0" ∈ summaryLines r
      ∧ "Duplicates: 0" ∈ summaryLines r
      ∧ r.summary = String.intercalate "\n" (summaryLines r) := by
  have e1 : "Missing values: " ++ toString r.missing.total_missing
      = "Missing values: 0" := by
    rw [h1]
    rfl
  have e2 : "Outliers: " ++ toString r.outliers.total_outliers
      = "Outliers: 0" := by
    rw [h2]
    rfl
  have e3 : "Duplicates: " ++ toString r.duplicates.total_duplicates
      = "Duplicates: 0" := by
    rw [h3]
    rfl
  refine ⟨?_, ?_, ?_, rfl⟩
  · rw [← e1]
    simp [summaryLines]
  · rw [← e2]
    simp [summaryLines]
  · rw [← e3]
    simp [summaryLines]

/-- An all-zero quality report used to witness the summary rendering. -/
def zeroReport : QualityReport :=
  { name := "empty"
    report_rows := 0
    report_cols := 0
    missing := { per_column := [], total_missing := 0 }
    outliers := { per_column := [], total_outliers := 0 }
    duplicates := { groups := [], total_duplicates := 0 } }

/-- Witness for C8 at the all-zero report. -/
theorem summary_states_zero_totals_witness :
    "Missing values: 0" ∈ summaryLines zeroReport
      ∧ "Outliers: 0" ∈ summaryLines zeroReport
      ∧ "Duplicates: 0" ∈ summaryLines zeroReport
      ∧ zeroReport.summary = String.intercalate "\n" (summaryLines zeroReport) :=
  summary_states_zero_totals zeroReport rfl rfl rfl

/-- Witness for C6 at a concrete pair of datasets with permuted rows. -/
theorem check_duplicates_perm_invariant_witness :
    (Dataset.rows { cols := [{ name := "a", cells := [Cell.num 1, Cell.num 2, Cell.num 1] }] }).Perm
        (Dataset.rows { cols := [{ name := "a", cells := [Cell.num 1, Cell.num 1, Cell.num 2] }] })
      ∧ (check_duplicates { cols := [{ name := "a", cells := [Cell.num 1, Cell.num 2, Cell.num 1] }] }).total_duplicates
        = (check_duplicates { cols := [{ name := "a", cells := [Cell.num 1, Cell.num 1, Cell.num 2] }] }).total_duplicates :=
  ⟨by decide, (check_duplicates_perm_invariant _ _ (by decide)).1⟩

/-- Modelled from the spec: the `DatasetChecker` object — it owns one
dataset by reference plus a name label fixed at construction (library
code absent from the tree). -/
structure Checker where
  dataset : Dataset
  label : String
deriving DecidableEq

/-- `check_missing_values` as a state-passing operation on the checker:
the returned checker is the post-call state. -/
def checkMissingStateful (ck : Checker) : MissingResult × Checker :=
  (check_missing_values ck.dataset, ck)

/-- `check_outliers` as a state-passing operation on the checker. -/
def checkOutliersStateful (ck : Checker) (t : ℚ) : OutlierResult × Checker :=
  (check_outliers ck.dataset t, ck)

/-- `check_duplicates` as a state-passing operation on the checker. -/
def checkDuplicatesStateful (ck : Checker) : DupResult × Checker :=
  (check_duplicates ck.dataset, ck)

/-- `run_quality_check` as a state-passing operation on the checker. -/
def runQualityCheckStateful (ck : Checker) (t : ℚ) :
    Except String QualityReport × Checker :=
  (run_quality_check (some ck.dataset) ck.label t, ck)

/-- C9: no check operation alters the checker state — after each call
the checker, and in particular its dataset with every cell value, equals
what it was before the call. -/
theorem checks_preserve_dataset (ck : Checker) (t : ℚ) :
    (checkMissingStateful ck).2 = ck
      ∧ (checkOutliersStateful ck t).2 = ck
      ∧ (checkDuplicatesStateful ck).2 = ck
      ∧ (runQualityCheckStateful ck t).2 = ck
      ∧ (checkMissingStateful ck).2.dataset = ck.dataset
      ∧ (checkOutliersStateful ck t).2.dataset = ck.dataset
      ∧ (checkDuplicatesStateful ck).2.dataset = ck.dataset
      ∧ (runQualityCheckStateful ck t).2.dataset = ck.dataset :=
  ⟨rfl, rfl, rfl, rfl, rfl, rfl, rfl, rfl⟩

/-- An arbitrary behaviour of the `dataset_checker` library as observed
by the smoke test: each call either returns a value or raises, modelled
with `Except`. -/
structure LibBehaviour where
  construct : Except String Checker
  missingCall : Checker → Except String MissingResult
  outlierCall : Checker → Except String OutlierResult
  duplicateCall : Checker → Except String DupResult
  reportCall : Checker → Except String QualityReport
  summaryCall : QualityReport → Except String String

/-- The body of the second `try` block of `main` in
`test_installation.py`: the five library calls in source order, each
short-circuiting to the handler on failure. -/
def mainChecks (lib : LibBehaviour) (ck : Checker) :
    Except String (List String) := do
  let m ← lib.missingCall ck
  let o ← lib.outlierCall ck
  let du ← lib.duplicateCall ck
  let r ← lib.reportCall ck
  let s ← lib.summaryCall r
  pure
    [ "Missing values check complete: found "
        ++ toString m.total_missing ++ " missing values"
    , "Outlier check complete: found "
        ++ toString o.total_outliers ++ " outliers"
    , "Duplicate check complete: found "
        ++ toString du.total_duplicates ++ " duplicates"
    , "Comprehensive quality check complete!"
    , s
    , "All tests passed! Dataset Checker is working correctly." ]

/-- `main` of `test_installation.py`: the preamble (banner, literal test
dataset, preview prints) cannot raise; the first `try` wraps checker
construction and returns after printing on failure; the second `try`
wraps the five check calls and prints a failure message on error.  The
result is the list of printed lines; an uncaught exception would be an
`Except.error` value. -/
def mainModel (lib : LibBehaviour) : Except String (List String) :=
  let pre := [ "Dataset Checker Installation Test"
             , "Creating test dataset..."
             , "Initializing DatasetChecker..." ]
  match lib.construct with
  | Except.error e =>
      Except.ok (pre ++ ["Failed to initialize DatasetChecker: " ++ e])
  | Except.ok ck =>
      match mainChecks lib ck with
      | Except.error e =>
          Except.ok (pre ++ ["DatasetChecker initialized successfully!",
            "Test failed: " ++ e])
      | Except.ok ls =>
          Except.ok (pre ++ ["DatasetChecker initialized successfully!"] ++ ls)

/-- C10: for every behaviour of the library, `main` returns normally —
every exception raised by construction or by any of the five check calls
is caught inside `main` and turned into a printed message, never
propagated to the caller. -/
theorem main_never_propagates (lib : LibBehaviour) :
    ∃ out, mainModel lib = Except.ok out := by
  unfold mainModel
  cases lib.construct with
  | error e => exact ⟨_, rfl⟩
  | ok ck =>
      cases hm : mainChecks lib ck with
      | error e =>
          refine ⟨[ "Dataset Checker Installation Test"
                  , "Creating test dataset..."
                  , "Initializing DatasetChecker..."
                  , "DatasetChecker initialized successfully!"
                  , "Test failed: " ++ e], ?_⟩
          simp [hm]
      | ok ls =>
          refine ⟨[ "Dataset Checker Installation Test"
                  , "Creating test dataset..."
                  , "Initializing DatasetChecker..."
                  , "DatasetChecker initialized successfully!"] ++ ls, ?_⟩
          simp [hm]

end DatasetChecker
